import Mathlib

/-!
A verification development for the Dextra build-and-deploy orchestrator.

The definitions below are a shallow embedding, in Lean, of the orchestration
core: the error classifier (`server/src/services/ErrorDetector.ts`), the
recovery engine (`RecoveryEngine.ts`), the process supervisor's result
construction (`CommandRunner.ts`) and the deployment workflow's build phase
and cancellation (`DeploymentWorkflow.ts`).  Text is `List Char`; the
JavaScript regular expressions used by the source are embedded as explicit
leftmost-match scanners whose greedy/backtracking behaviour is spelled out
per pattern; IEEE numbers are embedded as exact rationals.
-/

namespace Dextra

/-- Text, as a list of characters. -/
abbrev Str := List Char

/-- The characters of a string literal. -/
def str (s : String) : Str := s.data

/-- JavaScript's whitespace class `\s`, restricted to its ASCII members
(space, tab, line feed, carriage return, vertical tab, form feed). -/
def isWs (c : Char) : Bool :=
  c == ' ' || c == '\t' || c == '\n' || c == '\r' || c == '\x0b' || c == '\x0c'

/-- A single or double quote, the character class of the source's
bracketed captures. -/
def isQuote (c : Char) : Bool := c == '\'' || c == '"'

/-! ## Hash normalization (`ErrorDetector.generateErrorHash`)

The source normalizes the combined output with
`replace(/\d+/g, '0')`, then `replace(/\/[^\s]+/g, '/path')`, then
`replace(/at line \d+/g, 'at line 0')`, then `toLowerCase()`, then `trim()`,
and hashes the result. -/

/-- `replace(/\d+/g, '0')` as a left-to-right scan.  The flag records whether
the previous character was a digit, so that each maximal digit run emits a
single `'0'`. -/
def repDigitsAux : Bool → Str → Str
  | _, [] => []
  | prev, c :: cs =>
    if c.isDigit then (if prev then [] else ['0']) ++ repDigitsAux true cs
    else c :: repDigitsAux false cs

/-- Every digit run replaced by `'0'`. -/
def repDigits (s : Str) : Str := repDigitsAux false s

/-- `replace(/\/[^\s]+/g, '/path')` as a two-mode scan: in skip mode the
characters of a path token already replaced are dropped until whitespace;
otherwise a `'/'` followed by a non-whitespace character opens a token and
emits `/path`, and every other character is copied. -/
def repPathsAux : Bool → Str → Str
  | _, [] => []
  | true, c :: cs => if isWs c then c :: repPathsAux false cs else repPathsAux true cs
  | false, c :: cs =>
    if c == '/' then
      match cs with
      | [] => ['/']
      | d :: _ => if isWs d then '/' :: repPathsAux false cs
                  else str "/path" ++ repPathsAux true cs
    else c :: repPathsAux false cs

/-- Every `/`-headed non-whitespace token replaced by `/path`. -/
def repPaths (s : Str) : Str := repPathsAux false s

/-- The literal of the `at line \d+` pattern. -/
def atLineLit : Str := str "at line "

/-- `replace(/at line \d+/g, 'at line 0')`, scanning with fuel (the fuel is
the length of the text, which bounds the number of steps). -/
def repLineGo : Nat → Str → Str
  | 0, s => s
  | fuel + 1, s =>
    match s with
    | [] => []
    | c :: cs =>
      let rest := s.drop atLineLit.length
      if atLineLit.isPrefixOf s && (rest.headD 'x').isDigit then
        atLineLit ++ '0' :: repLineGo fuel (rest.dropWhile Char.isDigit)
      else c :: repLineGo fuel cs

/-- Every `at line <digits>` replaced by `at line 0`. -/
def repLine (s : Str) : Str := repLineGo s.length s

/-- `toLowerCase()` (ASCII). -/
def lowerStr (s : Str) : Str := s.map Char.toLower

/-- JavaScript `trim()`: whitespace removed from both ends. -/
def jsTrim (s : Str) : Str := ((s.dropWhile isWs).reverse.dropWhile isWs).reverse

/-- The `sha256`/hex/truncate-to-16 digest of node's `crypto` is an external
primitive, not code of this repository; it is embedded abstractly as the
identity on the normalized text.  Every theorem below uses only that the
digest is a pure function of the normalized text, which the real digest
also is. -/
def sha256hex16 (s : Str) : Str := s

/-- The normalization pipeline of `generateErrorHash`, in source order. -/
def normalizeForHash (s : Str) : Str :=
  jsTrim (lowerStr (repLine (repPaths (repDigits s))))

/-- `ErrorDetector.generateErrorHash`. -/
def generateErrorHash (content : Str) : Str := sha256hex16 (normalizeForHash content)

/-! ## Leftmost regex matching

Each source pattern is embedded as a function from text to an optional
match.  `RMatch` holds the matched text (`match[0]`) and the capture groups
the source reads (`match[1]`, `match[2]`).  `scanFirst` tries a
match-at-this-position function at every position from the left, which is
exactly the leftmost-match rule of `String.prototype.match`. -/

structure RMatch where
  m0 : Str
  g1 : Str := []
  g2 : Str := []
  deriving DecidableEq

/-- Leftmost match: try `m` at each position, leftmost first. -/
def scanFirst (m : Str → Option RMatch) : Str → Option RMatch
  | [] => m []
  | c :: cs =>
    match m (c :: cs) with
    | some r => some r
    | none => scanFirst m cs

/-- Match a literal at the head, returning the rest. -/
def dropLit (lit s : Str) : Option Str :=
  if lit.isPrefixOf s then some (s.drop lit.length) else none

/-- Case-insensitive character comparison (ASCII, the `i` flag). -/
def lowEq (a b : Char) : Bool := a.toLower == b.toLower

/-- Match a literal at the head case-insensitively, returning the rest. -/
def dropLitCi (lit s : Str) : Option Str :=
  if (s.take lit.length).length == lit.length
      && ((s.take lit.length).zip lit).all (fun p => lowEq p.1 p.2)
  then some (s.drop lit.length) else none

/-- `dropLit` or `dropLitCi`, by flag. -/
def dropLitG (ci : Bool) (lit s : Str) : Option Str :=
  if ci then dropLitCi lit s else dropLit lit s

/-- A pure literal pattern, at this position. -/
def litHere (lit : Str) (s : Str) : Option RMatch :=
  (dropLit lit s).map fun _ => { m0 := lit }

/-- A pure literal pattern (leftmost). -/
def litPat (lit : Str) (s : Str) : Option RMatch := scanFirst (litHere lit) s

/-- `String.prototype.includes`. -/
def containsLit (needle hay : Str) : Bool := (litPat needle hay).isSome

/-- `PRE['"](RUN+)['"]POST` at this position, where `RUN` is the class `p`.
The run is the maximal `p`-run after the opening quote; a shorter run would
leave a `p`-character where the closing quote must stand, so the greedy
maximal run is the only candidate, exactly as for the source's patterns
(`p` never contains a quote for them). -/
def quotedCapHere (pre : Str) (p : Char → Bool) (post : Str) (s : Str) : Option RMatch :=
  (dropLit pre s).bind fun r1 =>
  match r1 with
  | [] => none
  | q1 :: r2 =>
    if isQuote q1 then
      let run := r2.takeWhile p
      if run.isEmpty then none
      else
        match r2.drop run.length with
        | [] => none
        | q2 :: r3 =>
          if isQuote q2 then
            (dropLit post r3).map fun _ =>
              { m0 := pre ++ q1 :: (run ++ q2 :: post), g1 := run }
          else none
    else none

/-- `requires a peer of ([^@\s]+@[^\s]+)` at this position. -/
def peerHere (s : Str) : Option RMatch :=
  (dropLit (str "requires a peer of ") s).bind fun r1 =>
    let run1 := r1.takeWhile (fun c => !(c == '@' || isWs c))
    if run1.isEmpty then none
    else
      match r1.drop run1.length with
      | c :: r2 =>
        if c == '@' then
          let run2 := r2.takeWhile (fun c => !isWs c)
          if run2.isEmpty then none
          else some { m0 := str "requires a peer of " ++ run1 ++ '@' :: run2,
                      g1 := run1 ++ '@' :: run2 }
        else none
      | [] => none

/-- `version ([^\s]+) of ([^\s]+) is not compatible` at this position. -/
def versionHere (s : Str) : Option RMatch :=
  (dropLit (str "version ") s).bind fun r1 =>
    let run1 := r1.takeWhile (fun c => !isWs c)
    if run1.isEmpty then none
    else (dropLit (str " of ") (r1.drop run1.length)).bind fun r2 =>
      let run2 := r2.takeWhile (fun c => !isWs c)
      if run2.isEmpty then none
      else (dropLit (str " is not compatible") (r2.drop run2.length)).map fun _ =>
        { m0 := str "version " ++ run1 ++ str " of " ++ run2 ++ str " is not compatible",
          g1 := run1, g2 := run2 }

/-- `error TS(\d+):` at this position. -/
def tsHere (s : Str) : Option RMatch :=
  (dropLit (str "error TS") s).bind fun r1 =>
    let ds := r1.takeWhile Char.isDigit
    if ds.isEmpty then none
    else
      match r1.drop ds.length with
      | c :: _ => if c == ':' then some { m0 := str "error TS" ++ ds ++ [':'], g1 := ds }
                  else none
      | [] => none

/-- `timeout of (\d+)ms exceeded` at this position. -/
def timeoutHere (s : Str) : Option RMatch :=
  (dropLit (str "timeout of ") s).bind fun r1 =>
    let ds := r1.takeWhile Char.isDigit
    if ds.isEmpty then none
    else (dropLit (str "ms exceeded") (r1.drop ds.length)).map fun _ =>
      { m0 := str "timeout of " ++ ds ++ str "ms exceeded", g1 := ds }

/-- The backtracking search for `A.*B`: `.*` is greedy, so the longest
length `k` of the dot-run (bounded by the non-newline window) whose
continuation matches `B` wins.  Tries `k`, then `k - 1`, down to `0`. -/
def dotStarSearch (aTxt b : Str) (ci : Bool) (rest : Str) : Nat → Option RMatch
  | 0 =>
    match dropLitG ci b rest with
    | some _ => some { m0 := aTxt ++ rest.take b.length }
    | none => none
  | k + 1 =>
    match dropLitG ci b (rest.drop (k + 1)) with
    | some _ => some { m0 := aTxt ++ rest.take (k + 1 + b.length) }
    | none => dotStarSearch aTxt b ci rest k

/-- `A.*B` at this position (the dot does not match a newline). -/
def dotStarHere (a b : Str) (ci : Bool) (s : Str) : Option RMatch :=
  (dropLitG ci a s).bind fun rest =>
    dotStarSearch (s.take a.length) b ci rest ((rest.takeWhile (fun c => c != '\n')).length)

/-- The backtracking search for `SyntaxError: (.+) at line (\d+)`: the
greedy `(.+)` takes the longest `k ≥ 1` whose continuation matches
` at line ` and at least one digit; the trailing `(\d+)` is maximal. -/
def synErrSearch (pre : Str) (rest : Str) : Nat → Option RMatch
  | 0 => none
  | k + 1 =>
    match dropLit (str " at line ") (rest.drop (k + 1)) with
    | some r2 =>
      let ds := r2.takeWhile Char.isDigit
      if ds.isEmpty then synErrSearch pre rest k
      else some { m0 := pre ++ rest.take (k + 1) ++ str " at line " ++ ds,
                  g1 := rest.take (k + 1), g2 := ds }
    | none => synErrSearch pre rest k

/-- `SyntaxError: (.+) at line (\d+)` at this position. -/
def synErrHere (s : Str) : Option RMatch :=
  (dropLit (str "SyntaxError: ") s).bind fun rest =>
    synErrSearch (str "SyntaxError: ") rest ((rest.takeWhile (fun c => c != '\n')).length)

/-- The backtracking search for `at (.+):(\d+):(\d+)` (applied per line by
the source): greedy `(.+)` longest first; each `(\d+)` is forced maximal by
the `:` or line end that follows. -/
def atFileSearch (rest : Str) : Nat → Option RMatch
  | 0 => none
  | k + 1 =>
    match rest.drop (k + 1) with
    | c :: r2 =>
      if c == ':' then
        let d1 := r2.takeWhile Char.isDigit
        if d1.isEmpty then atFileSearch rest k
        else
          match r2.drop d1.length with
          | c2 :: r3 =>
            if c2 == ':' then
              let d2 := r3.takeWhile Char.isDigit
              if d2.isEmpty then atFileSearch rest k
              else some { m0 := str "at " ++ rest.take (k + 1) ++ ':' :: d1 ++ ':' :: d2,
                          g1 := rest.take (k + 1), g2 := d1 }
            else atFileSearch rest k
          | [] => atFileSearch rest k
      else atFileSearch rest k
    | [] => atFileSearch rest k

/-- `at (.+):(\d+):(\d+)` at this position. -/
def atFileHere (s : Str) : Option RMatch :=
  (dropLit (str "at ") s).bind fun rest => atFileSearch rest rest.length

/-- `\$ ([^\n]+)` at this position (`extractCommand`). -/
def cmdHere (s : Str) : Option RMatch :=
  (dropLit (str "$ ") s).bind fun r1 =>
    let run := r1.takeWhile (fun c => c != '\n')
    if run.isEmpty then none else some { m0 := str "$ " ++ run, g1 := run }

/-- `exited with code (\d+)` at this position (`extractExitCode`). -/
def exitHere (s : Str) : Option RMatch :=
  (dropLit (str "exited with code ") s).bind fun r1 =>
    let ds := r1.takeWhile Char.isDigit
    if ds.isEmpty then none
    else some { m0 := str "exited with code " ++ ds, g1 := ds }

/-- `node v(\d+\.\d+\.\d+)` at this position (`extractContext`). -/
def nodeVerHere (s : Str) : Option RMatch :=
  (dropLit (str "node v") s).bind fun r1 =>
    let d1 := r1.takeWhile Char.isDigit
    if d1.isEmpty then none
    else
      match r1.drop d1.length with
      | c :: r2 =>
        if c == '.' then
          let d2 := r2.takeWhile Char.isDigit
          if d2.isEmpty then none
          else
            match r2.drop d2.length with
            | c2 :: r3 =>
              if c2 == '.' then
                let d3 := r3.takeWhile Char.isDigit
                if d3.isEmpty then none
                else some { m0 := str "node v" ++ d1 ++ '.' :: d2 ++ '.' :: d3,
                            g1 := d1 ++ '.' :: d2 ++ '.' :: d3 }
              else none
            | [] => none
        else none
      | [] => none

/-- `parseInt` on a captured digit run. -/
def parseDigits (ds : Str) : Nat :=
  ds.foldl (fun n c => 10 * n + (c.toNat - '0'.toNat)) 0

/-! ## The error-pattern table (`ErrorDetector.setupErrorPatterns`)

One entry per `errorPatterns.set` call, in registration order — a
JavaScript `Map` iterates in insertion order, which is what
`detectError`'s `for (const [errorType, pattern] of this.errorPatterns)`
walks. -/

def patMissingDep (s : Str) : Option RMatch :=
  scanFirst (quotedCapHere (str "Cannot find module ") (fun c => !isQuote c) []) s

def patMissingPkg (s : Str) : Option RMatch :=
  scanFirst (quotedCapHere (str "Module not found: Error: Can't resolve ")
    (fun c => !isQuote c) []) s

def patPeerDep (s : Str) : Option RMatch := scanFirst peerHere s

def patVersionMismatch (s : Str) : Option RMatch := scanFirst versionHere s

def patTsError (s : Str) : Option RMatch := scanFirst tsHere s

def patSynError (s : Str) : Option RMatch := scanFirst synErrHere s

def patImportError (s : Str) : Option RMatch :=
  scanFirst (quotedCapHere (str "Error: Cannot resolve module ") (fun c => !isQuote c) []) s

def patBuildFailed (s : Str) : Option RMatch := litPat (str "Build failed with errors") s

/-- `['"]([A-Z_]+)['"] is not defined`. -/
def isUpperUnd (c : Char) : Bool := ('A' ≤ c && c ≤ 'Z') || c == '_'

def patMissingEnvVar (s : Str) : Option RMatch :=
  scanFirst (quotedCapHere [] isUpperUnd (str " is not defined")) s

def patEnvFileMissing (s : Str) : Option RMatch :=
  scanFirst (dotStarHere (str "ENOENT") (str ".env") false) s

def patInvalidEnvValue (s : Str) : Option RMatch :=
  litPat (str "Invalid value for environment variable") s

def patNetworkTimeout (s : Str) : Option RMatch := scanFirst timeoutHere s

def patConnRefused (s : Str) : Option RMatch := litPat (str "ECONNREFUSED") s

def patDnsError (s : Str) : Option RMatch := litPat (str "ENOTFOUND") s

def patSslError (s : Str) : Option RMatch :=
  scanFirst (dotStarHere (str "SSL") (str "error") false) s

def patPermissionDenied (s : Str) : Option RMatch :=
  litPat (str "EACCES: permission denied") s

def patReadOnlyFs (s : Str) : Option RMatch :=
  litPat (str "EROFS: read-only file system") s

def patFileNotFound (s : Str) : Option RMatch :=
  litPat (str "ENOENT: no such file or directory") s

def patAuthFailed (s : Str) : Option RMatch := litPat (str "Authentication failed") s

def patTokenExpired (s : Str) : Option RMatch :=
  scanFirst (dotStarHere (str "token") (str "expired") true) s

def patInvalidToken (s : Str) : Option RMatch :=
  scanFirst (dotStarHere (str "invalid") (str "token") true) s

def patUnauthorized (s : Str) : Option RMatch :=
  scanFirst (dotStarHere (str "401") (str "unauthorized") true) s

def patVercelError (s : Str) : Option RMatch :=
  scanFirst (dotStarHere (str "vercel") (str "error") true) s

def patRenderError (s : Str) : Option RMatch :=
  scanFirst (dotStarHere (str "render") (str "error") true) s

def patDockerError (s : Str) : Option RMatch :=
  scanFirst (dotStarHere (str "docker") (str "error") true) s

/-- The pattern table, in registration order. -/
def errorPatterns : List (String × (Str → Option RMatch)) :=
  [("missing_dependency", patMissingDep),
   ("missing_package", patMissingPkg),
   ("peer_dependency", patPeerDep),
   ("version_mismatch", patVersionMismatch),
   ("typescript_error", patTsError),
   ("syntax_error", patSynError),
   ("import_error", patImportError),
   ("build_failed", patBuildFailed),
   ("missing_env_var", patMissingEnvVar),
   ("env_file_missing", patEnvFileMissing),
   ("invalid_env_value", patInvalidEnvValue),
   ("network_timeout", patNetworkTimeout),
   ("connection_refused", patConnRefused),
   ("dns_error", patDnsError),
   ("ssl_error", patSslError),
   ("permission_denied", patPermissionDenied),
   ("read_only_filesystem", patReadOnlyFs),
   ("file_not_found", patFileNotFound),
   ("auth_failed", patAuthFailed),
   ("token_expired", patTokenExpired),
   ("invalid_token", patInvalidToken),
   ("unauthorized", patUnauthorized),
   ("vercel_error", patVercelError),
   ("render_error", patRenderError),
   ("docker_error", patDockerError)]

/-! ## Error signatures (`ErrorDetector`) -/

inductive ErrType where
  | build_error | dependency_error | config_error | auth_error
  | network_error | permission_error
  deriving DecidableEq

inductive Severity where
  | low | medium | high | critical
  deriving DecidableEq

/-- The context bag (`ErrorSignature['context']`); `dependencies` is declared
by the source's interface but never populated, so it is omitted. -/
structure ErrContext where
  framework : Option Str := none
  nodeVersion : Option Str := none
  platform : Option Str := none
  deriving DecidableEq

structure ErrorSignature where
  type : ErrType
  hash : Str
  message : Str
  file : Option Str
  line : Option Nat
  command : Str
  exitCode : Nat
  context : ErrContext
  severity : Severity
  suggestions : List Str
  deriving DecidableEq

/-- `extractCommand`. -/
def extractCommand (output : Str) : Str :=
  match scanFirst cmdHere output with
  | some m => m.g1
  | none => str "unknown"

/-- `extractExitCode`. -/
def extractExitCode (output : Str) : Nat :=
  match scanFirst exitHere output with
  | some m => parseDigits m.g1
  | none => 1

/-- The framework arm of `extractContext` (best-effort containment). -/
def extractFramework (output : Str) : Option Str :=
  if containsLit (str "react") output then some (str "react")
  else if containsLit (str "vue") output then some (str "vue")
  else if containsLit (str "angular") output then some (str "angular")
  else if containsLit (str "next") output then some (str "next")
  else if containsLit (str "nuxt") output then some (str "nuxt")
  else none

/-- The platform arm of `extractContext`. -/
def extractPlatform (output : Str) : Option Str :=
  if containsLit (str "vercel") output then some (str "vercel")
  else if containsLit (str "render") output then some (str "render")
  else if containsLit (str "docker") output then some (str "docker")
  else if containsLit (str "github") output then some (str "github")
  else none

/-- `extractContext`. -/
def extractContext (output : Str) : ErrContext :=
  { framework := extractFramework output,
    nodeVersion := (scanFirst nodeVerHere output).map RMatch.g1,
    platform := extractPlatform output }

/-- Split on `'\n'` (`String.prototype.split`). -/
def splitNl : Str → List Str
  | [] => [[]]
  | c :: cs =>
    match splitNl cs with
    | [] => if c == '\n' then [[], []] else [[c]]
    | h :: t => if c == '\n' then [] :: h :: t else (c :: h) :: t

/-- `match[0] || fullOutput.split('\n')[0] || 'Unknown error'`. -/
def sigMessage (m0 : Str) (fullOutput : Str) : Str :=
  if m0.isEmpty then
    let l0 := fullOutput.takeWhile (fun c => c != '\n')
    if l0.isEmpty then str "Unknown error" else l0
  else m0

/-- The per-rule error type, severity and suggestion list
(`createErrorSignature`'s `switch (errorType)`). -/
def ruleTypeSevSugg (errorType : String) (m : RMatch) : ErrType × Severity × List Str :=
  match errorType with
  | "missing_dependency" | "missing_package" =>
    (.dependency_error, .high,
     [str "Install missing package: npm install " ++ m.g1,
      str "Check if package is in dependencies vs devDependencies",
      str "Verify package name spelling"])
  | "peer_dependency" =>
    (.dependency_error, .medium,
     [str "Install peer dependency: npm install " ++ m.g1,
      str "Check package documentation for required peer dependencies"])
  | "version_mismatch" =>
    (.dependency_error, .high,
     [str "Update package versions to compatible ranges",
      str "Use npm ls to check dependency tree",
      str "Consider using npm update"])
  | "typescript_error" | "syntax_error" =>
    (.build_error, .high,
     [str "Fix TypeScript/syntax errors in source code",
      str "Check TypeScript configuration",
      str "Update TypeScript version if needed"])
  | "missing_env_var" =>
    (.config_error, .medium,
     [str "Set environment variable: " ++ m.g1 ++ str "=value",
      str "Create .env file with required variables",
      str "Check deployment platform environment settings"])
  | "auth_failed" | "token_expired" | "invalid_token" =>
    (.auth_error, .critical,
     [str "Refresh authentication token",
      str "Re-authenticate with platform",
      str "Check token permissions and scope"])
  | "network_timeout" | "connection_refused" | "dns_error" =>
    (.network_error, .medium,
     [str "Check internet connection",
      str "Verify API endpoints are accessible",
      str "Try again after network issues resolve"])
  | "permission_denied" | "read_only_filesystem" =>
    (.permission_error, .high,
     [str "Check file/folder permissions",
      str "Run with appropriate user privileges",
      str "Verify write access to target directory"])
  | _ =>
    (.build_error, .medium,
     [str "Check error logs for more details", str "Try rebuilding the project"])

/-- The first line matching `at (.+):(\d+):(\d+)` (file/line extraction). -/
def fileLineOf (lines : List Str) : Option RMatch :=
  lines.findSome? (fun l => scanFirst atFileHere l)

/-- `ErrorDetector.createErrorSignature`. -/
def createErrorSignature (errorType : String) (m : RMatch)
    (fullOutput : Str) (lines : List Str) : ErrorSignature :=
  let tss := ruleTypeSevSugg errorType m
  let fl := fileLineOf lines
  { type := tss.1,
    hash := generateErrorHash fullOutput,
    message := sigMessage m.m0 fullOutput,
    file := fl.map RMatch.g1,
    line := fl.map (fun r => parseDigits r.g2),
    command := extractCommand fullOutput,
    exitCode := extractExitCode fullOutput,
    context := extractContext fullOutput,
    severity := tss.2.1,
    suggestions := tss.2.2 }

/-- `ErrorDetector.createGenericErrorSignature` (no `file`/`line`). -/
def createGenericErrorSignature (stderr fullOutput : Str) : ErrorSignature :=
  { type := .build_error,
    hash := generateErrorHash fullOutput,
    message :=
      (let l0 := stderr.takeWhile (fun c => c != '\n')
       if l0.isEmpty then str "Unknown error" else l0),
    file := none,
    line := none,
    command := extractCommand fullOutput,
    exitCode := extractExitCode fullOutput,
    context := extractContext fullOutput,
    severity := .medium,
    suggestions :=
      [str "Check error logs for more details",
       str "Verify project configuration",
       str "Try rebuilding the project"] }

/-- The first table rule matching the combined output. -/
def firstSome {α β : Type _} (f : α → Option β) : List α → Option β
  | [] => none
  | x :: xs =>
    match f x with
    | some r => some r
    | none => firstSome f xs

/-- The loop body of `detectError`: the first pattern (in registration
order) matching the text, with its match. -/
def firstPatternMatch (s : Str) : Option (String × RMatch) :=
  firstSome (fun p => (p.2 s).map (fun m => (p.1, m))) errorPatterns

/-- `ErrorDetector.detectError`, for the initialized detector (after
`initialize()` has installed the pattern table; before initialization the
source returns `null` unconditionally). -/
def detectError (stderr : Str) (stdout : Str) : Option ErrorSignature :=
  let combined := stderr ++ '\n' :: stdout
  let lines := splitNl combined
  match firstPatternMatch combined with
  | some nm => some (createErrorSignature nm.1 nm.2 combined lines)
  | none =>
    if (jsTrim stderr).isEmpty then none
    else some (createGenericErrorSignature stderr combined)

/-! ## Recovery actions (`RecoveryEngine.ts`)

Confidence values are the source's IEEE literals read as exact rationals.
The parameter bag (`Record<string, any>`) is a structure with one optional
field per key the source ever writes; a missing key is `none`. -/

structure ActionParams where
  package : Option Str := none
  key : Option Str := none
  promptUser : Option Bool := none
  defaultValue : Option Str := none
  template : Option String := none
  clearNodeModules : Option Bool := none
  clearBuildOutput : Option Bool := none
  clearPackageLock : Option Bool := none
  errorCode : Option Nat := none
  checkModuleResolution : Option Bool := none
  autoFix : Option Bool := none
  platform : Option Str := none
  reauthRequired : Option Bool := none
  maxRetries : Option Nat := none
  backoffMultiplier : Option Nat := none
  initialDelay : Option Nat := none
  delay : Option Nat := none
  targetPath : Option String := none
  permissions : Option String := none
  targetVersion : Option String := none
  checkCompatibility : Option Bool := none
  deriving DecidableEq

/-- JavaScript truthiness of `params.package` (present and non-empty). -/
def ActionParams.hasPackage (p : ActionParams) : Bool :=
  match p.package with
  | some l => !l.isEmpty
  | none => false

/-- A recovery action without its alternatives.  In the source the elements
of `alternatives` never themselves carry alternatives, so the recursive
interface is embedded as two levels. -/
structure RecoveryActionBase where
  action : String
  params : ActionParams
  confidence : ℚ
  description : Str
  estimatedTime : ℤ
  riskLevel : String
  prerequisites : List String := []
  deriving DecidableEq

structure RecoveryAction extends RecoveryActionBase where
  alternatives : List RecoveryActionBase := []
  deriving DecidableEq

/-- A recovery rule: pattern, generator, priority, enabled flag.  The
generators of the source are total functions of the match and the
signature, so the `try/catch` around `rule.actionGenerator` never fires in
this embedding. -/
structure RecoveryRule where
  rulePattern : Str → Option RMatch
  gen : RMatch → ErrorSignature → RecoveryAction
  priority : ℤ
  enabled : Bool

/-- Rule 1: missing dependency. -/
def ruleMissingDep : RecoveryRule :=
  { rulePattern := patMissingDep,
    gen := fun m _ =>
      { action := "install_dependency",
        params := { package := some m.g1 },
        confidence := 0.95,
        description := str "Install missing package: " ++ m.g1,
        estimatedTime := 30,
        riskLevel := "low",
        prerequisites := ["npm", "yarn", "pnpm"],
        alternatives :=
          [{ action := "install_dev_dependency",
             params := { package := some m.g1 },
             confidence := 0.80,
             description := str "Install as dev dependency: " ++ m.g1,
             estimatedTime := 30,
             riskLevel := "low" }] },
    priority := 1,
    enabled := true }

/-- Rule 2: peer dependency. -/
def rulePeerDep : RecoveryRule :=
  { rulePattern := patPeerDep,
    gen := fun m _ =>
      { action := "install_peer_dependency",
        params := { package := some m.g1 },
        confidence := 0.90,
        description := str "Install peer dependency: " ++ m.g1,
        estimatedTime := 30,
        riskLevel := "low" },
    priority := 1,
    enabled := true }

/-- Rule 3: missing environment variable. -/
def ruleEnvVar : RecoveryRule :=
  { rulePattern := patMissingEnvVar,
    gen := fun m _ =>
      { action := "set_env_variable",
        params := { key := some m.g1, promptUser := some true, defaultValue := some [] },
        confidence := 0.85,
        description := str "Set environment variable: " ++ m.g1,
        estimatedTime := 60,
        riskLevel := "low",
        prerequisites := ["user_input"] },
    priority := 2,
    enabled := true }

/-- Rule 4: missing `.env` file. -/
def ruleEnvFile : RecoveryRule :=
  { rulePattern := patEnvFileMissing,
    gen := fun _ _ =>
      { action := "create_env_file",
        params := { template := some "basic", promptUser := some true },
        confidence := 0.80,
        description := str "Create .env file with required variables",
        estimatedTime := 120,
        riskLevel := "low",
        prerequisites := ["user_input"] },
    priority := 2,
    enabled := true }

/-- Rule 5: build cache issues. -/
def ruleBuildCache : RecoveryRule :=
  { rulePattern := patBuildFailed,
    gen := fun _ _ =>
      { action := "clear_cache_and_retry",
        params := { clearNodeModules := some false, clearBuildOutput := some true,
                    clearPackageLock := some false },
        confidence := 0.70,
        description := str "Clear build cache and retry",
        estimatedTime := 60,
        riskLevel := "low",
        alternatives :=
          [{ action := "clear_all_cache",
             params := { clearNodeModules := some true, clearBuildOutput := some true,
                         clearPackageLock := some true },
             confidence := 0.85,
             description := str "Clear all cache and reinstall dependencies",
             estimatedTime := 180,
             riskLevel := "medium" }] },
    priority := 3,
    enabled := true }

/-- Rule 6: TypeScript errors, special-cased by numeric code range
(2300–2399 are module-resolution errors). -/
def ruleTypescript : RecoveryRule :=
  { rulePattern := patTsError,
    gen := fun m _ =>
      let tsErrorCode := parseDigits m.g1
      if 2300 ≤ tsErrorCode ∧ tsErrorCode < 2400 then
        { action := "fix_typescript_config",
          params := { errorCode := some tsErrorCode, checkModuleResolution := some true },
          confidence := 0.75,
          description := str "Fix TypeScript configuration for error TS" ++ m.g1,
          estimatedTime := 120,
          riskLevel := "medium",
          prerequisites := ["typescript_config"] }
      else
        { action := "fix_typescript_errors",
          params := { errorCode := some tsErrorCode, autoFix := some false },
          confidence := 0.60,
          description := str "Fix TypeScript error TS" ++ m.g1,
          estimatedTime := 300,
          riskLevel := "medium",
          prerequisites := ["manual_fix"] },
    priority := 2,
    enabled := true }

/-- The alternation `(token.*expired|invalid.*token|authentication.*failed)`
with the `i` flag: at each position the alternatives are tried in order,
leftmost position first. -/
def patAuthIssue (s : Str) : Option RMatch :=
  scanFirst (fun t =>
    match dotStarHere (str "token") (str "expired") true t with
    | some r => some r
    | none =>
      match dotStarHere (str "invalid") (str "token") true t with
      | some r => some r
      | none => dotStarHere (str "authentication") (str "failed") true t) s

/-- Rule 7: authentication token issues. -/
def ruleAuthToken : RecoveryRule :=
  { rulePattern := patAuthIssue,
    gen := fun _ ctx =>
      { action := "refresh_auth_token",
        params := { platform := some (match ctx.context.platform with
                                      | some p => p
                                      | none => str "unknown"),
                    reauthRequired := some true },
        confidence := 0.90,
        description := str "Refresh authentication token",
        estimatedTime := 60,
        riskLevel := "low",
        prerequisites := ["user_reauth"] },
    priority := 1,
    enabled := true }

/-- Rule 8: network timeout. -/
def ruleNetworkTimeout : RecoveryRule :=
  { rulePattern := patNetworkTimeout,
    gen := fun _ _ =>
      { action := "retry_with_backoff",
        params := { maxRetries := some 3, backoffMultiplier := some 2,
                    initialDelay := some 5000 },
        confidence := 0.80,
        description := str "Retry with exponential backoff",
        estimatedTime := 30,
        riskLevel := "low" },
    priority := 3,
    enabled := true }

/-- Rule 9: permission denied. -/
def rulePermission : RecoveryRule :=
  { rulePattern := patPermissionDenied,
    gen := fun _ _ =>
      { action := "fix_permissions",
        params := { targetPath := some "auto_detect", permissions := some "755" },
        confidence := 0.85,
        description := str "Fix file/folder permissions",
        estimatedTime := 30,
        riskLevel := "medium",
        prerequisites := ["admin_access"] },
    priority := 2,
    enabled := true }

/-- Rule 10: version compatibility. -/
def ruleVersionCompat : RecoveryRule :=
  { rulePattern := patVersionMismatch,
    gen := fun m _ =>
      { action := "upgrade_dependency",
        params := { package := some m.g2, targetVersion := some "latest",
                    checkCompatibility := some true },
        confidence := 0.75,
        description := str "Upgrade " ++ m.g2 ++ str " to compatible version",
        estimatedTime := 120,
        riskLevel := "medium",
        alternatives :=
          [{ action := "downgrade_dependency",
             params := { package := some m.g2, targetVersion := some "compatible",
                         checkCompatibility := some true },
             confidence := 0.70,
             description := str "Downgrade " ++ m.g2 ++ str " to compatible version",
             estimatedTime := 120,
             riskLevel := "medium" }] },
    priority := 2,
    enabled := true }

/-- The rule list in registration order (`setupRecoveryRules`). -/
def recoveryRules : List RecoveryRule :=
  [ruleMissingDep, rulePeerDep, ruleEnvVar, ruleEnvFile, ruleBuildCache,
   ruleTypescript, ruleAuthToken, ruleNetworkTimeout, rulePermission,
   ruleVersionCompat]

/-- Stable insertion into a descending-priority list: `r` goes after every
rule of strictly greater priority and before equal-priority rules that were
inserted from further right. -/
def insertRule (r : RecoveryRule) : List RecoveryRule → List RecoveryRule
  | [] => [r]
  | x :: xs => if r.priority < x.priority then x :: insertRule r xs else r :: x :: xs

/-- `[...rules].sort((a, b) => b.priority - a.priority)`: a stable
descending sort (JavaScript's `Array.prototype.sort` is stable). -/
def sortRulesDesc : List RecoveryRule → List RecoveryRule
  | [] => []
  | x :: xs => insertRule x (sortRulesDesc xs)

def sortedRecoveryRules : List RecoveryRule := sortRulesDesc recoveryRules

/-- `adjustConfidence`'s severity factor. -/
def severityFactor : Severity → ℚ
  | .critical => 0.9
  | .high => 1.0
  | .medium => 1.1
  | .low => 1.2

/-- The known-framework table of `checkFrameworkCompatibility` (all known
entries map to `1.0`). -/
def knownFrameworks : List Str :=
  [str "react", str "vue", str "angular", str "next", str "nuxt"]

/-- `checkFrameworkCompatibility` (`compatibilityMap[framework] || 0.8`). -/
def checkFrameworkCompatibility (framework : Str) (_packageName : Str) : ℚ :=
  if framework ∈ knownFrameworks then 1.0 else 0.8

/-- JavaScript truthiness of `context.context.framework`. -/
def ErrorSignature.hasFramework (sig : ErrorSignature) : Bool :=
  match sig.context.framework with
  | some f => !f.isEmpty
  | none => false

/-- `RecoveryEngine.adjustConfidence`: the source multiplies the base
confidence in place by the severity factor, then — when the signature
carries a (truthy) framework and the action a (truthy) package parameter —
by the framework-compatibility factor, and clamps the result with
`Math.max(0.1, Math.min(1.0, confidence))`. -/
def adjustConfidence (action : RecoveryAction) (context : ErrorSignature) : ℚ :=
  max 0.1 (min 1.0
    (if context.hasFramework && action.params.hasPackage then
       action.confidence * severityFactor context.severity
         * checkFrameworkCompatibility (context.context.framework.getD [])
             (action.params.package.getD [])
     else action.confidence * severityFactor context.severity))

/-- `RecoveryEngine.getGenericRecoveryAction`. -/
def getGenericRecoveryAction (_errorSignature : ErrorSignature) : RecoveryAction :=
  { action := "generic_retry",
    params := { maxRetries := some 2, delay := some 5000 },
    confidence := 0.30,
    description := str "Generic retry with delay",
    estimatedTime := 30,
    riskLevel := "low",
    alternatives :=
      [{ action := "manual_investigation",
         params := {},
         confidence := 0.50,
         description := str "Manual investigation required",
         estimatedTime := 600,
         riskLevel := "low",
         prerequisites := ["user_intervention"] }] }

/-- The loop of `getRecoveryAction`: the first enabled rule (in sorted
order) whose pattern matches the message. -/
def firstRuleMatch (message : Str) : List RecoveryRule → Option (RecoveryRule × RMatch)
  | [] => none
  | r :: rs =>
    if r.enabled then
      match r.rulePattern message with
      | some m => some (r, m)
      | none => firstRuleMatch message rs
    else firstRuleMatch message rs

/-- `RecoveryEngine.getRecoveryAction`, for the initialized engine (after
`initialize()`; before initialization the source returns `null`
unconditionally). -/
def getRecoveryAction (errorSignature : ErrorSignature) : Option RecoveryAction :=
  match firstRuleMatch errorSignature.message sortedRecoveryRules with
  | some rm =>
    let action := rm.1.gen rm.2 errorSignature
    some { action with confidence := adjustConfidence action errorSignature }
  | none => some (getGenericRecoveryAction errorSignature)

/-- `checkPackageManager` (stubbed `true` in the source). -/
def checkPackageManager (_manager : String) : Bool := true

/-- `checkTypeScriptConfig` (stubbed `true` in the source). -/
def checkTypeScriptConfig : Bool := true

/-- `checkAdminAccess` (stubbed `true` in the source). -/
def checkAdminAccess : Bool := true

/-- `RecoveryEngine.checkPrerequisite`.  Note the source returns `true` for
`user_input`, `user_intervention` and `user_reauth` (its comment reads
"These require user interaction"). -/
def checkPrerequisite (p : String) : Bool :=
  match p with
  | "npm" | "yarn" | "pnpm" => checkPackageManager p
  | "typescript_config" => checkTypeScriptConfig
  | "admin_access" => checkAdminAccess
  | "user_input" | "user_intervention" | "user_reauth" => true
  | _ => true

/-- `RecoveryEngine.validateActionParameters`. -/
def validateActionParameters (a : RecoveryAction) : Bool :=
  if a.confidence < 0 ∨ a.confidence > 1 then false
  else if a.estimatedTime < 0 then false
  else if a.riskLevel ∉ ["low", "medium", "high"] then false
  else true

/-- `RecoveryEngine.validateRecoveryAction`: every prerequisite must check
out, then the parameters. -/
def validateRecoveryAction (a : RecoveryAction) : Bool :=
  a.prerequisites.all checkPrerequisite && validateActionParameters a

/-! ## The process supervisor's result construction (`CommandRunner.ts`)

`execute` settles its promise from one of two terminating events of the
child process: `close(code)` — `code` is `null` when the process was
terminated by a signal — or `error(err)` (a spawn-level failure).  The
embedding gives the handlers as pure functions of the event and the
accumulated output. -/

structure CommandResult where
  success : Bool
  stdout : Str
  stderr : Str
  exitCode : ℤ
  duration : ℕ
  deriving DecidableEq

/-- A terminating event of the child process. -/
inductive TermEvent where
  | close (code : Option ℤ)
  | error (message : Str)
  deriving DecidableEq

/-- How `execute`'s promise settles. -/
inductive ExecOutcome where
  | resolved (result : CommandResult)
  | rejected (message : Str)
  deriving DecidableEq

def ExecOutcome.isResolved : ExecOutcome → Bool
  | .resolved _ => true
  | .rejected _ => false

/-- `code || 0`: `null` and `0` are falsy, any other number is itself. -/
def jsOrZero : Option ℤ → ℤ
  | none => 0
  | some c => c

/-- The `CommandResult` built by the `close` handler:
`success: code === 0`, `exitCode: code || 0`, trimmed accumulators. -/
def closeResult (code : Option ℤ) (stdoutAcc stderrAcc : Str) (duration : ℕ) :
    CommandResult :=
  { success := code == some 0,
    stdout := jsTrim stdoutAcc,
    stderr := jsTrim stderrAcc,
    exitCode := jsOrZero code,
    duration := duration }

/-- The `CommandResult` carried by the `error` event the `error` handler
emits: `stderr.trim() + (stderr ? '\n' : '') + error.message`,
`exitCode: -1`. -/
def errorEventResult (msg stdoutAcc stderrAcc : Str) (duration : ℕ) : CommandResult :=
  { success := false,
    stdout := jsTrim stdoutAcc,
    stderr := jsTrim stderrAcc ++ (if stderrAcc.isEmpty then [] else ['\n']) ++ msg,
    exitCode := -1,
    duration := duration }

/-- How `CommandRunner.execute` settles on a terminating event: the `close`
handler resolves with `closeResult`; the `error` handler emits an `error`
event carrying `errorEventResult` and then rejects the promise with the
fault (`reject(error)` — it does not resolve). -/
def executeOutcome (ev : TermEvent) (stdoutAcc stderrAcc : Str) (duration : ℕ) :
    ExecOutcome :=
  match ev with
  | .close code => .resolved (closeResult code stdoutAcc stderrAcc duration)
  | .error msg => .rejected msg

/-! ## The deployment workflow's build phase (`DeploymentWorkflow.buildProject`)

One attempt of the building phase, as a function of the build command's
`CommandResult`, and the phase's retry recursion, as a function of the
stream of successive build results (one per attempt). -/

inductive BuildNext where
  | done | retry | fail
  deriving DecidableEq

/-- What one build attempt does: whether a `task:recovery` event was
emitted, which recovery action (if any) was executed, and how the attempt
ends. -/
structure BuildAttempt where
  recoveryEmitted : Bool
  executed : Option RecoveryAction
  next : BuildNext
  deriving DecidableEq

/-- One pass of `buildProject`'s failure handling: on failure, classify; if
an action is found with confidence above `0.7` emit `task:recovery`; above
`0.9` also execute it and retry the phase; otherwise the phase fails
(`throw new Error`). -/
def buildAttempt (r : CommandResult) : BuildAttempt :=
  if r.success then ⟨false, none, .done⟩
  else
    match detectError r.stderr r.stdout with
    | some sig =>
      match getRecoveryAction sig with
      | some a =>
        if 0.7 < a.confidence then
          if 0.9 < a.confidence then ⟨true, some a, .retry⟩
          else ⟨true, none, .fail⟩
        else ⟨false, none, .fail⟩
      | none => ⟨false, none, .fail⟩
    | none => ⟨false, none, .fail⟩

inductive BuildRunResult where
  | success
  | failure (recoveryEmitted : Bool)
  | exhausted
  deriving DecidableEq

/-- The building phase over the stream of successive build results: a
`retry` re-enters the phase (`return this.buildProject(taskId, options)`)
consuming the next result — the recursion retries this phase only, never
the whole workflow.  `exhausted` marks the end of the modelled stream. -/
def buildRun : List CommandResult → BuildRunResult
  | [] => .exhausted
  | r :: rest =>
    match buildAttempt r with
    | ⟨_, _, .done⟩ => .success
    | ⟨_, _, .retry⟩ => buildRun rest
    | ⟨e, _, .fail⟩ => .failure e

/-! ## Cancellation (`DeploymentWorkflow.cancelTask`)

The workflow state: the `activeTasks` map, the record store's task rows,
the supervisor's live-process map (`CommandRunner.activeProcesses`), the
kill signals issued so far, and the events emitted so far.  `cancelTask`
looks the task up in `activeTasks`, marks it cancelled, removes it and
emits `task:cancelled`; it returns `false` when the task is not active
(including after `executeDeployment`'s `finally` removed it). -/

structure TaskRec where
  id : Str
  status : String
  deriving DecidableEq

structure WorkflowState where
  activeTasks : List (Str × TaskRec)
  dbTasks : List (Str × TaskRec)
  runnerProcs : List Str
  kills : List Str
  events : List String
  deriving DecidableEq

/-- `Map.get` (keys are unique, first match). -/
def lookupTask (k : Str) : List (Str × TaskRec) → Option TaskRec
  | [] => none
  | p :: t => if p.1 == k then some p.2 else lookupTask k t

/-- Set a task's status in a map/row list. -/
def setTaskStatus (k : Str) (st : String) : List (Str × TaskRec) → List (Str × TaskRec)
  | [] => []
  | p :: t =>
    (if p.1 == k then (p.1, { p.2 with status := st }) else p) :: setTaskStatus k st t

/-- `Map.delete`. -/
def removeTask (k : Str) : List (Str × TaskRec) → List (Str × TaskRec)
  | [] => []
  | p :: t => if p.1 != k then p :: removeTask k t else removeTask k t

/-- `updateTaskStatus(taskId, status)`: updates the record store, mutates
the in-memory task, and emits `task:status`. -/
def updateTaskStatus (taskId : Str) (st : String) (s : WorkflowState) : WorkflowState :=
  { s with dbTasks := setTaskStatus taskId st s.dbTasks,
           activeTasks := setTaskStatus taskId st s.activeTasks,
           events := s.events ++ ["task:status"] }

/-- `DeploymentWorkflow.cancelTask`.  It issues no kill to the supervisor
and does not touch `runnerProcs`. -/
def cancelTask (taskId : Str) (s : WorkflowState) : Bool × WorkflowState :=
  match lookupTask taskId s.activeTasks with
  | none => (false, s)
  | some _ =>
    let s1 := updateTaskStatus taskId "cancelled" s
    (true, { s1 with activeTasks := removeTask taskId s1.activeTasks,
                     events := s1.events ++ ["task:cancelled"] })

/-! ## Theorems -/

/-- The clamp of `adjustConfidence` keeps the result in `[0.1, 1.0]`. -/
lemma adjustConfidence_bounds (a : RecoveryAction) (sig : ErrorSignature) :
    1/10 ≤ adjustConfidence a sig ∧ adjustConfidence a sig ≤ 1 := by
  unfold adjustConfidence
  constructor
  · have h : (1/10 : ℚ) = 0.1 := by norm_num
    rw [h]
    exact le_max_left _ _
  · refine max_le (by norm_num) ?_
    exact le_trans (min_le_left _ _) (by norm_num)

/-- C1: for every error signature, the initialized Recovery Engine's
`getRecoveryAction` returns an action (never `null`, never a fault — its
generators are total) whose confidence lies in `[0.1, 1.0]`, and when no
enabled rule pattern matches the signature's message it returns the generic
low-confidence action. -/
theorem c1_suggest_total_bounded :
    (∀ sig : ErrorSignature, ∃ a : RecoveryAction,
        getRecoveryAction sig = some a ∧ 1/10 ≤ a.confidence ∧ a.confidence ≤ 1) ∧
    (∀ sig : ErrorSignature,
        (firstRuleMatch sig.message sortedRecoveryRules).isNone = true →
        getRecoveryAction sig = some (getGenericRecoveryAction sig)) := by
  constructor
  · intro sig
    unfold getRecoveryAction
    cases h : firstRuleMatch sig.message sortedRecoveryRules with
    | none =>
      refine ⟨getGenericRecoveryAction sig, rfl, ?_, ?_⟩ <;>
        simp [getGenericRecoveryAction] <;> norm_num
    | some rm =>
      refine ⟨_, rfl, ?_, ?_⟩
      · exact (adjustConfidence_bounds _ _).1
      · exact (adjustConfidence_bounds _ _).2
  · intro sig h
    unfold getRecoveryAction
    cases hm : firstRuleMatch sig.message sortedRecoveryRules with
    | none => rfl
    | some rm => rw [hm] at h; simp [Option.isNone] at h

/-- A minimal signature whose message matches no recovery rule. -/
def plainSig : ErrorSignature :=
  { type := .build_error, hash := [], message := str "xyz", file := none, line := none,
    command := str "unknown", exitCode := 1, context := {}, severity := .medium,
    suggestions := [] }

theorem c1_suggest_total_bounded_witness :
    getRecoveryAction plainSig = some (getGenericRecoveryAction plainSig) ∧
    (∃ a : RecoveryAction, getRecoveryAction plainSig = some a ∧
        1/10 ≤ a.confidence ∧ a.confidence ≤ 1) :=
  ⟨c1_suggest_total_bounded.2 plainSig (by decide), c1_suggest_total_bounded.1 plainSig⟩

/-- The action generated by the `set_env_variable` rule for the capture
`API_KEY`: its prerequisites demand user input. -/
def userInputAction : RecoveryAction :=
  { action := "set_env_variable",
    params := { key := some (str "API_KEY"), promptUser := some true,
                defaultValue := some [] },
    confidence := 0.85,
    description := str "Set environment variable: API_KEY",
    estimatedTime := 60,
    riskLevel := "low",
    prerequisites := ["user_input"] }

/-- C7: the claim says automatic validation must return `false` for an
action whose prerequisites demand user interaction; the code's
`checkPrerequisite` returns `true` for `user_input`, `user_intervention`
and `user_reauth`, so `validateRecoveryAction` approves such an action. -/
theorem c7_user_interaction_validates :
    userInputAction.prerequisites = ["user_input"] ∧
    checkPrerequisite "user_input" = true ∧
    checkPrerequisite "user_intervention" = true ∧
    checkPrerequisite "user_reauth" = true ∧
    validateRecoveryAction userInputAction = true := by
  refine ⟨rfl, rfl, rfl, rfl, ?_⟩
  unfold validateRecoveryAction
  rw [Bool.and_eq_true]
  refine ⟨rfl, ?_⟩
  unfold validateActionParameters
  have hconf : userInputAction.confidence = 0.85 := rfl
  have het : userInputAction.estimatedTime = 60 := rfl
  have hrl : userInputAction.riskLevel = "low" := rfl
  rw [hconf, het, hrl]
  rw [if_neg (by norm_num), if_neg (by norm_num), if_neg (by simp)]

/-- C10: a child process that closes with a `null` exit code (signal
termination) yields a resolved result with `success = false` but
`exitCode = 0` (`code || 0`), so `exitCode = 0` does not imply success. -/
theorem c10_null_code_result (out err : Str) (d : ℕ) :
    executeOutcome (.close none) out err d = .resolved (closeResult none out err d) ∧
    (closeResult none out err d).success = false ∧
    (closeResult none out err d).exitCode = 0 :=
  ⟨rfl, rfl, rfl⟩

/-- C4 counterexample: a spawn-level error does not resolve the promise
with a failure result — the `error` handler rejects it with the fault. -/
theorem c4_spawn_error_rejects :
    executeOutcome (.error (str "spawn npm ENOENT")) [] (str "npm: not found") 3
      = .rejected (str "spawn npm ENOENT") ∧
    (executeOutcome (.error (str "spawn npm ENOENT")) [] (str "npm: not found") 3).isResolved
      = false :=
  ⟨rfl, rfl⟩

/-- C4 (amended): a close with a non-zero (or null) exit code resolves with
`success = false` and the trimmed partial output, and exit code `0` is the
sole success criterion of the close handler; a spawn-level error rejects
the promise with the fault, while the emitted `error` event carries a
failure result with `success = false` and `exitCode = -1`. -/
theorem c4_failure_semantics (code : Option ℤ) (out err msg : Str) (d : ℕ)
    (hc : code ≠ some 0) :
    executeOutcome (.close code) out err d = .resolved (closeResult code out err d) ∧
    (closeResult code out err d).success = false ∧
    (closeResult code out err d).stdout = jsTrim out ∧
    (closeResult code out err d).stderr = jsTrim err ∧
    (closeResult (some 0) out err d).success = true ∧
    executeOutcome (.error msg) out err d = .rejected msg ∧
    (errorEventResult msg out err d).success = false ∧
    (errorEventResult msg out err d).exitCode = -1 := by
  refine ⟨rfl, ?_, rfl, rfl, ?_, rfl, rfl, rfl⟩
  · show (code == some 0) = false
    exact beq_eq_false_iff_ne.mpr hc
  · rfl

theorem c4_failure_semantics_witness :
    executeOutcome (.close (some 1)) (str " out ") (str "err") 7
      = .resolved (closeResult (some 1) (str " out ") (str "err") 7) ∧
    (closeResult (some 1) (str " out ") (str "err") 7).success = false ∧
    (closeResult (some 1) (str " out ") (str "err") 7).stdout = jsTrim (str " out ") ∧
    (closeResult (some 1) (str " out ") (str "err") 7).stderr = jsTrim (str "err") ∧
    (closeResult (some 0) (str " out ") (str "err") 7).success = true ∧
    executeOutcome (.error (str "spawn sh EACCES")) (str " out ") (str "err") 7
      = .rejected (str "spawn sh EACCES") ∧
    (errorEventResult (str "spawn sh EACCES") (str " out ") (str "err") 7).success = false ∧
    (errorEventResult (str "spawn sh EACCES") (str " out ") (str "err") 7).exitCode = -1 :=
  c4_failure_semantics (some 1) (str " out ") (str "err") (str "spawn sh EACCES") 7
    (by decide)

/-- C5: one failed build attempt with a classified signature: above the
auto-apply threshold `0.9` the attempt emits `task:recovery`, executes the
action and retries the building phase (the recursion consumes the next
build result — it does not restart the workflow); in `(0.7, 0.9]` it emits
`task:recovery` without executing and the phase fails; at or below `0.7`
the phase fails with no recovery event. -/
theorem c5_build_recovery (r : CommandResult) (rest : List CommandResult)
    (sig : ErrorSignature) (a : RecoveryAction)
    (h1 : r.success = false)
    (h2 : detectError r.stderr r.stdout = some sig)
    (h3 : getRecoveryAction sig = some a) :
    (0.9 < a.confidence →
        buildAttempt r = ⟨true, some a, .retry⟩ ∧ buildRun (r :: rest) = buildRun rest) ∧
    (0.7 < a.confidence → a.confidence ≤ 0.9 →
        buildAttempt r = ⟨true, none, .fail⟩ ∧ buildRun (r :: rest) = .failure true) ∧
    (a.confidence ≤ 0.7 →
        buildAttempt r = ⟨false, none, .fail⟩ ∧ buildRun (r :: rest) = .failure false) := by
  refine ⟨fun h9 => ?_, fun h7 h9 => ?_, fun h7 => ?_⟩
  · have h7 : (0.7 : ℚ) < a.confidence := lt_trans (by norm_num) h9
    have hb : buildAttempt r = ⟨true, some a, .retry⟩ := by
      simp [buildAttempt, h1, h2, h3, h7, h9]
    exact ⟨hb, by simp [buildRun, hb]⟩
  · have h9' : ¬ (0.9 : ℚ) < a.confidence := not_lt.mpr h9
    have hb : buildAttempt r = ⟨true, none, .fail⟩ := by
      simp [buildAttempt, h1, h2, h3, h7, h9']
    exact ⟨hb, by simp [buildRun, hb]⟩
  · have h7' : ¬ (0.7 : ℚ) < a.confidence := not_lt.mpr h7
    have hb : buildAttempt r = ⟨false, none, .fail⟩ := by
      simp [buildAttempt, h1, h2, h3, h7']
    exact ⟨hb, by simp [buildRun, hb]⟩

/-- A build result failing with a missing-module message. -/
def failRes : CommandResult :=
  { success := false, stdout := [], stderr := str "Cannot find module 'x'",
    exitCode := 1, duration := 0 }

/-- A successful build result. -/
def okRes : CommandResult :=
  { success := true, stdout := [], stderr := [], exitCode := 0, duration := 0 }

/-- The signature classified from `failRes`. -/
def c5sig : ErrorSignature :=
  (detectError failRes.stderr failRes.stdout).getD (createGenericErrorSignature [] [])

/-- The action suggested for `c5sig` (confidence `0.95`). -/
def c5act : RecoveryAction :=
  (getRecoveryAction c5sig).getD (getGenericRecoveryAction c5sig)

theorem c5_build_recovery_witness :
    buildAttempt failRes = ⟨true, some c5act, .retry⟩ ∧
    buildRun [failRes, okRes] = buildRun [okRes] :=
  (c5_build_recovery failRes [okRes] c5sig c5act rfl rfl rfl).1
    (by
      have hc : c5act.confidence = max 0.1 (min 1.0 ((0.95 : ℚ) * 1.0)) := rfl
      rw [hc]
      norm_num)

lemma lookupTask_removeTask (k : Str) (l : List (Str × TaskRec)) :
    lookupTask k (removeTask k l) = none := by
  induction l with
  | nil => rfl
  | cons p t ih =>
    cases h : (p.1 == k) with
    | true => simp [removeTask, bne, h, ih]
    | false => simp [removeTask, lookupTask, bne, h, ih]

lemma lookupTask_setTaskStatus (k : Str) (st : String) (l : List (Str × TaskRec)) :
    lookupTask k (setTaskStatus k st l)
      = (lookupTask k l).map (fun t => { t with status := st }) := by
  induction l with
  | nil => rfl
  | cons p t ih =>
    cases h : (p.1 == k) with
    | true => simp [setTaskStatus, lookupTask, h]
    | false => simp [setTaskStatus, lookupTask, h, ih]

/-- C6 (amended): cancelling a task with no active run returns `false` and
changes nothing; cancelling an active task returns `true`, marks the task
cancelled in the record store, removes it from the active map, and issues
no kill (the supervisor's live-process map and the kill log are untouched);
a second cancellation of the now-inactive task returns `false`. -/
theorem c6_cancel_task (tid : Str) (s : WorkflowState) :
    (lookupTask tid s.activeTasks = none → cancelTask tid s = (false, s)) ∧
    (∀ t, lookupTask tid s.activeTasks = some t →
        (cancelTask tid s).1 = true ∧
        lookupTask tid (cancelTask tid s).2.activeTasks = none ∧
        lookupTask tid (cancelTask tid s).2.dbTasks
          = (lookupTask tid s.dbTasks).map (fun t0 => { t0 with status := "cancelled" }) ∧
        (cancelTask tid s).2.kills = s.kills ∧
        (cancelTask tid s).2.runnerProcs = s.runnerProcs ∧
        (cancelTask tid (cancelTask tid s).2).1 = false) := by
  constructor
  · intro h
    simp [cancelTask, h]
  · intro t h
    have hc : cancelTask tid s
        = (true,
           { activeTasks := removeTask tid (setTaskStatus tid "cancelled" s.activeTasks),
             dbTasks := setTaskStatus tid "cancelled" s.dbTasks,
             runnerProcs := s.runnerProcs,
             kills := s.kills,
             events := (s.events ++ ["task:status"]) ++ ["task:cancelled"] }) := by
      simp [cancelTask, h, updateTaskStatus]
    refine ⟨by simp [hc], ?_, ?_, by simp [hc], by simp [hc], ?_⟩
    · rw [hc]
      exact lookupTask_removeTask tid _
    · rw [hc]
      exact lookupTask_setTaskStatus tid _ _
    · rw [hc]
      simp [cancelTask, lookupTask_removeTask]

/-! ### Hash stability (C2) -/

/-- Whether the last character scanned is a digit, starting from state `p`
(the scan state of `repDigitsAux` after a prefix). -/
def dstate (p : Bool) : Str → Bool
  | [] => p
  | c :: cs => dstate c.isDigit cs

lemma repDigitsAux_append (p : Bool) (x y : Str) :
    repDigitsAux p (x ++ y) = repDigitsAux p x ++ repDigitsAux (dstate p x) y := by
  induction x generalizing p with
  | nil => rfl
  | cons c cs ih =>
    show repDigitsAux p (c :: (cs ++ y)) = _
    by_cases h : c.isDigit = true
    · simp [repDigitsAux, dstate, h, ih true, List.append_assoc]
    · simp [repDigitsAux, dstate, h, ih false, List.append_assoc]

lemma repDigitsAux_all_digits (d : Str) (h : ∀ c ∈ d, c.isDigit = true) :
    repDigitsAux true d = [] := by
  induction d with
  | nil => rfl
  | cons c cs ih =>
    simp [repDigitsAux, h c (by simp), ih (fun x hx => h x (by simp [hx]))]

lemma repDigitsAux_false_digits (d : Str) (hne : d ≠ []) (h : ∀ c ∈ d, c.isDigit = true) :
    repDigitsAux false d = ['0'] := by
  cases d with
  | nil => exact absurd rfl hne
  | cons c cs =>
    simp [repDigitsAux, h c (by simp),
      repDigitsAux_all_digits cs (fun x hx => h x (by simp [hx]))]

lemma dstate_cons_digits (p : Bool) (c : Char) (cs : Str)
    (h : ∀ x ∈ c :: cs, x.isDigit = true) : dstate p (c :: cs) = true := by
  induction cs generalizing p c with
  | nil => simpa [dstate] using h c (by simp)
  | cons c2 t ih =>
    show dstate c.isDigit (c2 :: t) = true
    exact ih c.isDigit c2 (fun x hx => h x (List.mem_cons_of_mem c hx))

lemma dstate_of_digits (p : Bool) (d : Str) (hne : d ≠ []) (h : ∀ x ∈ d, x.isDigit = true) :
    dstate p d = true := by
  cases d with
  | nil => exact absurd rfl hne
  | cons c cs => exact dstate_cons_digits p c cs h

lemma repDigitsAux_cons_nondigit (p : Bool) (c : Char) (cs : Str) (h : c.isDigit = false) :
    repDigitsAux p (c :: cs) = c :: repDigitsAux false cs := by
  simp [repDigitsAux, h]

/-- The digit stage erases which concrete digit run stood between a prefix
not ending in a digit and any suffix. -/
lemma repDigits_digit_run (a d₁ d₂ b : Str) (ha : dstate false a = false)
    (h1ne : d₁ ≠ []) (h1 : ∀ c ∈ d₁, c.isDigit = true)
    (h2ne : d₂ ≠ []) (h2 : ∀ c ∈ d₂, c.isDigit = true) :
    repDigits (a ++ d₁ ++ b) = repDigits (a ++ d₂ ++ b) := by
  have key : ∀ d, d ≠ [] → (∀ c ∈ d, c.isDigit = true) →
      repDigits (a ++ d ++ b)
        = repDigitsAux false a ++ '0' :: repDigitsAux true b := by
    intro d hne h
    unfold repDigits
    rw [List.append_assoc, repDigitsAux_append, ha, repDigitsAux_append,
        repDigitsAux_false_digits d hne h, dstate_of_digits false d hne h]
    rfl
  rw [key d₁ h1ne h1, key d₂ h2ne h2]

/-- Skip mode consumes any non-whitespace run. -/
lemma repPathsAux_true_append (u w : Str) (hu : ∀ c ∈ u, isWs c = false) :
    repPathsAux true (u ++ w) = repPathsAux true w := by
  induction u with
  | nil => rfl
  | cons c cs ih =>
    simp [repPathsAux, hu c (by simp), ih (fun x hx => hu x (by simp [hx]))]

lemma repPathsAux_true_cons_ws (c : Char) (cs : Str) (h : isWs c = true) :
    repPathsAux true (c :: cs) = c :: repPathsAux false cs := by
  simp [repPathsAux, h]

lemma repPathsAux_true_cons_nws (c : Char) (cs : Str) (h : isWs c = false) :
    repPathsAux true (c :: cs) = repPathsAux true cs := by
  simp [repPathsAux, h]

lemma repPathsAux_false_cons_other (c : Char) (cs : Str) (h : (c == '/') = false) :
    repPathsAux false (c :: cs) = c :: repPathsAux false cs := by
  simp [repPathsAux, h]

lemma repPathsAux_false_slash_ws (d : Char) (cs : Str) (h : isWs d = true) :
    repPathsAux false ('/' :: d :: cs) = '/' :: repPathsAux false (d :: cs) := by
  simp [repPathsAux, h]

lemma repPathsAux_false_slash_nws (d : Char) (cs : Str) (h : isWs d = false) :
    repPathsAux false ('/' :: d :: cs) = str "/path" ++ repPathsAux true (d :: cs) := by
  simp [repPathsAux, h]

/-- The path stage erases which concrete non-whitespace token followed a
slash. -/
lemma repPathsAux_path_token (x : Str) (m : Bool) (u₁ u₂ w : Str)
    (h1ne : u₁ ≠ []) (h1 : ∀ c ∈ u₁, isWs c = false)
    (h2ne : u₂ ≠ []) (h2 : ∀ c ∈ u₂, isWs c = false) :
    repPathsAux m (x ++ '/' :: (u₁ ++ w)) = repPathsAux m (x ++ '/' :: (u₂ ++ w)) := by
  have baseT : ∀ u : Str, u ≠ [] → (∀ c ∈ u, isWs c = false) →
      repPathsAux true ('/' :: (u ++ w)) = repPathsAux true w := by
    intro u hne hu
    rw [repPathsAux_true_cons_nws '/' _ rfl]
    exact repPathsAux_true_append u w hu
  have baseF : ∀ u : Str, u ≠ [] → (∀ c ∈ u, isWs c = false) →
      repPathsAux false ('/' :: (u ++ w)) = str "/path" ++ repPathsAux true w := by
    intro u hne hu
    cases u with
    | nil => exact absurd rfl hne
    | cons e u' =>
      rw [show (e :: u') ++ w = e :: (u' ++ w) from rfl,
          repPathsAux_false_slash_nws e (u' ++ w) (hu e (by simp))]
      congr 1
      exact repPathsAux_true_append (e :: u') w hu
  induction x generalizing m with
  | nil =>
    cases m with
    | true =>
      rw [List.nil_append, List.nil_append, baseT u₁ h1ne h1, baseT u₂ h2ne h2]
    | false =>
      rw [List.nil_append, List.nil_append, baseF u₁ h1ne h1, baseF u₂ h2ne h2]
  | cons c x' ih =>
    have hx : ∀ u : Str, (c :: x') ++ '/' :: (u ++ w) = c :: (x' ++ '/' :: (u ++ w)) :=
      fun _ => rfl
    rw [hx u₁, hx u₂]
    cases m with
    | true =>
      by_cases hc : isWs c = true
      · rw [repPathsAux_true_cons_ws c _ hc, repPathsAux_true_cons_ws c _ hc, ih false]
      · rw [repPathsAux_true_cons_nws c _ (by simpa using hc),
            repPathsAux_true_cons_nws c _ (by simpa using hc), ih true]
    | false =>
      by_cases hc : (c == '/') = true
      · have hceq : c = '/' := by simpa using hc
        subst hceq
        cases x' with
        | nil =>
          rw [show ([] : Str) ++ '/' :: (u₁ ++ w) = '/' :: (u₁ ++ w) from rfl,
              show ([] : Str) ++ '/' :: (u₂ ++ w) = '/' :: (u₂ ++ w) from rfl,
              repPathsAux_false_slash_nws '/' (u₁ ++ w) rfl,
              repPathsAux_false_slash_nws '/' (u₂ ++ w) rfl]
          congr 1
          rw [repPathsAux_true_cons_nws '/' _ rfl, repPathsAux_true_cons_nws '/' _ rfl,
              repPathsAux_true_append u₁ w h1, repPathsAux_true_append u₂ w h2]
        | cons d x'' =>
          have hx2 : ∀ u : Str,
              (d :: x'') ++ '/' :: (u ++ w) = d :: (x'' ++ '/' :: (u ++ w)) :=
            fun _ => rfl
          rw [hx2 u₁, hx2 u₂]
          by_cases hd : isWs d = true
          · rw [repPathsAux_false_slash_ws d _ hd, repPathsAux_false_slash_ws d _ hd]
            congr 1
            rw [← hx2 u₁, ← hx2 u₂]
            exact ih false
          · rw [repPathsAux_false_slash_nws d _ (by simpa using hd),
                repPathsAux_false_slash_nws d _ (by simpa using hd)]
            congr 1
            rw [← hx2 u₁, ← hx2 u₂]
            exact ih true
      · rw [repPathsAux_false_cons_other c _ (by simpa using hc),
            repPathsAux_false_cons_other c _ (by simpa using hc), ih false]

/-- The hash only sees the text through the digit stage. -/
lemma generateErrorHash_congr_digits (s₁ s₂ : Str) (h : repDigits s₁ = repDigits s₂) :
    generateErrorHash s₁ = generateErrorHash s₂ := by
  unfold generateErrorHash normalizeForHash
  rw [h]

/-- The hash only sees the text through the digit and path stages. -/
lemma generateErrorHash_congr_paths (s₁ s₂ : Str)
    (h : repPaths (repDigits s₁) = repPaths (repDigits s₂)) :
    generateErrorHash s₁ = generateErrorHash s₂ := by
  unfold generateErrorHash normalizeForHash
  rw [h]

lemma repDigitsAux_false_ne_nil (t : Str) (h : t ≠ []) : repDigitsAux false t ≠ [] := by
  cases t with
  | nil => exact absurd rfl h
  | cons c cs =>
    by_cases hd : c.isDigit = true <;> simp [repDigitsAux, hd]

lemma repDigitsAux_no_ws (p : Bool) (t : Str) (h : ∀ c ∈ t, isWs c = false) :
    ∀ c ∈ repDigitsAux p t, isWs c = false := by
  induction t generalizing p with
  | nil => intro c hc; simp [repDigitsAux] at hc
  | cons c cs ih =>
    intro x hx
    by_cases hd : c.isDigit = true
    · rw [repDigitsAux, if_pos hd] at hx
      rcases List.mem_append.mp hx with h0 | hrest
      · cases p with
        | true => simp at h0
        | false =>
          simp at h0
          rw [h0]; rfl
      · exact ih true (fun y hy => h y (by simp [hy])) x hrest
    · rw [repDigitsAux_cons_nondigit p c cs (by simpa using hd)] at hx
      rcases List.mem_cons.mp hx with h0 | hrest
      · rw [h0]; exact h c (by simp)
      · exact ih false (fun y hy => h y (by simp [hy])) x hrest

lemma ws_not_digit (c : Char) (h : isWs c = true) : c.isDigit = false := by
  simp only [isWs, Bool.or_eq_true, beq_iff_eq] at h
  rcases h with ((((h | h) | h) | h) | h) | h <;> subst h <;> rfl

/-- `detectError` with its `let` bindings unfolded. -/
lemma detectError_eq (e o : Str) :
    detectError e o =
      match firstPatternMatch (e ++ '\n' :: o) with
      | some nm =>
        some (createErrorSignature nm.1 nm.2 (e ++ '\n' :: o) (splitNl (e ++ '\n' :: o)))
      | none =>
        if (jsTrim e).isEmpty then none
        else some (createGenericErrorSignature e (e ++ '\n' :: o)) := rfl

/-- The cons step of the digit scan does not depend on the incoming state
when the head is not a digit. -/
lemma repDigits_path_shape (a t b : Str) (_hne : t ≠ []) (_ht : ∀ c ∈ t, isWs c = false)
    (hb : b = [] ∨ ∃ c b', b = c :: b' ∧ isWs c = true) :
    repDigits (a ++ '/' :: (t ++ b))
      = repDigitsAux false a
          ++ '/' :: (repDigitsAux false t ++ repDigitsAux (dstate false t) b) ∧
    repDigitsAux (dstate false t) b = repDigitsAux true b := by
  constructor
  · unfold repDigits
    rw [repDigitsAux_append]
    have hslash : ∀ q : Bool, repDigitsAux q ('/' :: (t ++ b))
        = '/' :: repDigitsAux false (t ++ b) := by
      intro q
      exact repDigitsAux_cons_nondigit q '/' (t ++ b) rfl
    rw [hslash, repDigitsAux_append]
  · rcases hb with rfl | ⟨c, b', rfl, hc⟩
    · rfl
    · rw [repDigitsAux_cons_nondigit _ c b' (ws_not_digit c hc),
          repDigitsAux_cons_nondigit true c b' (ws_not_digit c hc)]

/-- C2: the classifier's hash is a deterministic pure function of the
normalized combined output — identical `(stderr, stdout)` inputs yield
identical signature hashes; every produced signature's hash is
`generateErrorHash` of the combined output; and the hash is stable under
substitution of digit runs and of `/`-headed path tokens. -/
theorem c2_hash_deterministic_normalized :
    (∀ e₁ o₁ e₂ o₂ (s₁ s₂ : ErrorSignature), e₁ = e₂ → o₁ = o₂ →
        detectError e₁ o₁ = some s₁ → detectError e₂ o₂ = some s₂ →
        s₁.hash = s₂.hash) ∧
    (∀ e o sig, detectError e o = some sig →
        sig.hash = generateErrorHash (e ++ '\n' :: o)) ∧
    (∀ a d₁ d₂ b : Str, dstate false a = false →
        d₁ ≠ [] → (∀ c ∈ d₁, c.isDigit = true) →
        d₂ ≠ [] → (∀ c ∈ d₂, c.isDigit = true) →
        generateErrorHash (a ++ d₁ ++ b) = generateErrorHash (a ++ d₂ ++ b)) ∧
    (∀ a t₁ t₂ b : Str, t₁ ≠ [] → (∀ c ∈ t₁, isWs c = false) →
        t₂ ≠ [] → (∀ c ∈ t₂, isWs c = false) →
        (b = [] ∨ ∃ c b', b = c :: b' ∧ isWs c = true) →
        generateErrorHash (a ++ '/' :: (t₁ ++ b))
          = generateErrorHash (a ++ '/' :: (t₂ ++ b))) := by
  have hash_of : ∀ e o sig, detectError e o = some sig →
      sig.hash = generateErrorHash (e ++ '\n' :: o) := by
    intro e o sig h
    rw [detectError_eq] at h
    cases hm : firstPatternMatch (e ++ '\n' :: o) with
    | some nm =>
      rw [hm] at h
      simp only [Option.some.injEq] at h
      rw [← h]
      rfl
    | none =>
      rw [hm] at h
      by_cases ht : (jsTrim e).isEmpty = true
      · simp [ht] at h
      · simp only [ht, Bool.false_eq_true, if_false, Option.some.injEq] at h
        rw [← h]
        rfl
  refine ⟨?_, hash_of, ?_, ?_⟩
  · intro e₁ o₁ e₂ o₂ s₁ s₂ he ho h1 h2
    subst he; subst ho
    rw [hash_of e₁ o₁ s₁ h1, hash_of e₁ o₁ s₂ h2]
  · intro a d₁ d₂ b ha h1ne h1 h2ne h2
    exact generateErrorHash_congr_digits _ _ (repDigits_digit_run a d₁ d₂ b ha h1ne h1 h2ne h2)
  · intro a t₁ t₂ b h1ne h1 h2ne h2 hb
    apply generateErrorHash_congr_paths
    obtain ⟨e1, eb1⟩ := repDigits_path_shape a t₁ b h1ne h1 hb
    obtain ⟨e2, eb2⟩ := repDigits_path_shape a t₂ b h2ne h2 hb
    rw [e1, e2, eb1, eb2]
    unfold repPaths
    exact repPathsAux_path_token (repDigitsAux false a) false _ _ (repDigitsAux true b)
      (repDigitsAux_false_ne_nil t₁ h1ne) (repDigitsAux_no_ws false t₁ h1)
      (repDigitsAux_false_ne_nil t₂ h2ne) (repDigitsAux_no_ws false t₂ h2)

/-- The signature classified from a plain one-line stderr. -/
def c2sig : ErrorSignature :=
  (detectError (str "boom") []).getD (createGenericErrorSignature [] [])

theorem c2_hash_deterministic_normalized_witness :
    c2sig.hash = c2sig.hash ∧
    c2sig.hash = generateErrorHash (str "boom" ++ '\n' :: []) ∧
    generateErrorHash (str "line " ++ str "42" ++ str " ok")
      = generateErrorHash (str "line " ++ str "7" ++ str " ok") ∧
    generateErrorHash (str "at " ++ '/' :: (str "usr/lib/app.js" ++ str " failed"))
      = generateErrorHash (str "at " ++ '/' :: (str "opt/x.js" ++ str " failed")) :=
  ⟨c2_hash_deterministic_normalized.1 (str "boom") [] (str "boom") [] c2sig c2sig
      rfl rfl rfl rfl,
   c2_hash_deterministic_normalized.2.1 (str "boom") [] c2sig rfl,
   c2_hash_deterministic_normalized.2.2.1 (str "line ") (str "42") (str "7") (str " ok")
      (by decide) (by decide) (by decide) (by decide) (by decide),
   c2_hash_deterministic_normalized.2.2.2 (str "at ") (str "usr/lib/app.js")
      (str "opt/x.js") (str " failed") (by decide) (by decide) (by decide) (by decide)
      (Or.inr ⟨' ', str "failed", rfl, rfl⟩)⟩

/-! ### The confidence adjustment formula (C8) -/

/-- `adjustConfidence` as the closed product formula of the claim. -/
lemma adjustConfidence_formula (a : RecoveryAction) (sig : ErrorSignature) :
    adjustConfidence a sig
      = max 0.1 (min 1.0
          (a.confidence
            * (match sig.severity with
               | .critical => (0.9 : ℚ) | .high => 1.0 | .medium => 1.1 | .low => 1.2)
            * (if sig.hasFramework && a.params.hasPackage then
                 (if sig.context.framework.getD [] ∈ knownFrameworks then (1.0 : ℚ)
                  else 0.8)
               else 1))) := by
  have hsev : severityFactor sig.severity
      = (match sig.severity with
         | .critical => (0.9 : ℚ) | .high => 1.0 | .medium => 1.1 | .low => 1.2) := by
    cases sig.severity <;> rfl
  unfold adjustConfidence checkFrameworkCompatibility
  rw [hsev]
  by_cases hf : (sig.hasFramework && a.params.hasPackage) = true
  · rw [if_pos hf, if_pos hf]
  · rw [if_neg hf, if_neg hf, mul_one]

/-- C8: for every matched recovery rule, the returned action is the
generator's action with its confidence replaced by the base confidence
times the severity factor (critical ×0.9, high ×1.0, medium ×1.1,
low ×1.2), times — exactly when the action carries a (non-empty) package
parameter and the signature carries a framework — the framework factor
(known frameworks react/vue/angular/next/nuxt ×1.0, any other ×0.8), the
product clamped into [0.1, 1.0]. -/
theorem c8_adjusted_confidence (sig : ErrorSignature) (r : RecoveryRule) (m : RMatch)
    (h : firstRuleMatch sig.message sortedRecoveryRules = some (r, m)) :
    getRecoveryAction sig
      = some { r.gen m sig with
               confidence :=
                 max 0.1 (min 1.0
                   ((r.gen m sig).confidence
                     * (match sig.severity with
                        | .critical => (0.9 : ℚ) | .high => 1.0
                        | .medium => 1.1 | .low => 1.2)
                     * (if sig.hasFramework && (r.gen m sig).params.hasPackage then
                          (if sig.context.framework.getD [] ∈ knownFrameworks
                           then (1.0 : ℚ) else 0.8)
                        else 1))) } := by
  unfold getRecoveryAction
  rw [h, ← adjustConfidence_formula]

/-- The match of the missing-dependency rule against `c5sig`'s message. -/
def c8m : RMatch := { m0 := str "Cannot find module 'x'", g1 := str "x" }

theorem c8_adjusted_confidence_witness :
    getRecoveryAction c5sig
      = some { ruleMissingDep.gen c8m c5sig with
               confidence :=
                 max 0.1 (min 1.0
                   ((ruleMissingDep.gen c8m c5sig).confidence
                     * (match c5sig.severity with
                        | .critical => (0.9 : ℚ) | .high => 1.0
                        | .medium => 1.1 | .low => 1.2)
                     * (if c5sig.hasFramework
                           && (ruleMissingDep.gen c8m c5sig).params.hasPackage then
                          (if c5sig.context.framework.getD [] ∈ knownFrameworks
                           then (1.0 : ℚ) else 0.8)
                        else 1))) } :=
  c8_adjusted_confidence c5sig ruleMissingDep c8m rfl

/-! ### The left-pad end-to-end run (C3) -/

lemma dropLit_append (lit rest : Str) : dropLit lit (lit ++ rest) = some rest := by
  unfold dropLit
  rw [if_pos, List.drop_left]
  rw [List.isPrefixOf_iff_prefix]
  exact List.prefix_append lit rest

lemma dropLit_nil (s : Str) : dropLit [] s = some s := by
  simp [dropLit, List.isPrefixOf]

lemma takeWhile_all_append (p : Char → Bool) (l : Str) (c : Char) (r : Str)
    (hl : ∀ x ∈ l, p x = true) (hc : p c = false) :
    (l ++ c :: r).takeWhile p = l := by
  induction l with
  | nil => simp [List.takeWhile, hc]
  | cons x xs ih =>
    rw [List.cons_append, List.takeWhile_cons, hl x (by simp), if_pos rfl,
        ih (fun y hy => hl y (by simp [hy]))]

lemma scanFirst_of_here (m : Str → Option RMatch) (s : Str) (r : RMatch)
    (h : m s = some r) : scanFirst m s = some r := by
  cases s <;> simp [scanFirst, h]

/-- `quotedCapHere` at a head occurrence of `PRE'RUN'`. -/
lemma quotedCap_at_head (pre lp rest : Str) (p : Char → Bool)
    (hlp : ∀ x ∈ lp, p x = true) (hlpne : lp ≠ []) (hq : p '\'' = false) :
    quotedCapHere pre p [] (pre ++ '\'' :: (lp ++ '\'' :: rest))
      = some { m0 := pre ++ '\'' :: (lp ++ ['\'']), g1 := lp } := by
  have h1 : (lp ++ '\'' :: rest).takeWhile p = lp :=
    takeWhile_all_append p lp '\'' rest hlp hq
  have h2 : (lp ++ '\'' :: rest).drop lp.length = '\'' :: rest := List.drop_left lp _
  have hE : lp.isEmpty = false := by
    cases lp with
    | nil => exact absurd rfl hlpne
    | cons a t => rfl
  unfold quotedCapHere
  rw [dropLit_append, Option.some_bind]
  dsimp only
  rw [if_pos (show isQuote '\'' = true from rfl), h1, hE]
  rw [if_neg (by simp), h2]
  dsimp only
  rw [if_pos (show isQuote '\'' = true from rfl), dropLit_nil]
  rfl

/-- The first error pattern matches the left-pad stderr at its head, for
any stdout. -/
lemma patMissingDep_leftPad (o : Str) :
    patMissingDep (str "Cannot find module 'left-pad'" ++ '\n' :: o)
      = some { m0 := str "Cannot find module 'left-pad'", g1 := str "left-pad" } := by
  have hdec : str "Cannot find module 'left-pad'" ++ '\n' :: o
      = str "Cannot find module " ++ '\'' :: (str "left-pad" ++ '\'' :: ('\n' :: o)) :=
    rfl
  rw [hdec]
  unfold patMissingDep
  apply scanFirst_of_here
  exact quotedCap_at_head (str "Cannot find module ") (str "left-pad") ('\n' :: o) _
    (by decide) (by decide) rfl

lemma firstPatternMatch_leftPad (o : Str) :
    firstPatternMatch (str "Cannot find module 'left-pad'" ++ '\n' :: o)
      = some ("missing_dependency",
          { m0 := str "Cannot find module 'left-pad'", g1 := str "left-pad" }) := by
  unfold firstPatternMatch errorPatterns
  show firstSome _ (("missing_dependency", patMissingDep) :: _) = _
  simp only [firstSome, patMissingDep_leftPad o, Option.map_some']

lemma extractFramework_known (s : Str) :
    extractFramework s = none ∨
    ∃ f, extractFramework s = some f ∧ f ∈ knownFrameworks ∧ f ≠ [] := by
  unfold extractFramework
  split_ifs
  · exact Or.inr ⟨_, rfl, by decide, by decide⟩
  · exact Or.inr ⟨_, rfl, by decide, by decide⟩
  · exact Or.inr ⟨_, rfl, by decide, by decide⟩
  · exact Or.inr ⟨_, rfl, by decide, by decide⟩
  · exact Or.inr ⟨_, rfl, by decide, by decide⟩
  · exact Or.inl rfl

/-- C3: for stderr `Cannot find module 'left-pad'` and any stdout, the
classifier produces a `dependency_error` signature of severity `high`, and
the Recovery Engine suggests `install_dependency` with
`params.package = "left-pad"` at adjusted confidence at least `0.8`. -/
theorem c3_left_pad_end_to_end (o : Str) :
    ∃ (sig : ErrorSignature) (a : RecoveryAction),
      detectError (str "Cannot find module 'left-pad'") o = some sig ∧
      sig.type = .dependency_error ∧
      sig.severity = .high ∧
      getRecoveryAction sig = some a ∧
      a.action = "install_dependency" ∧
      a.params.package = some (str "left-pad") ∧
      4/5 ≤ a.confidence := by
  set full := str "Cannot find module 'left-pad'" ++ '\n' :: o with hfull
  set m0 : RMatch :=
    { m0 := str "Cannot find module 'left-pad'", g1 := str "left-pad" } with hm0
  set sig := createErrorSignature "missing_dependency" m0 full (splitNl full) with hsig
  have hdet : detectError (str "Cannot find module 'left-pad'") o = some sig := by
    rw [detectError_eq, firstPatternMatch_leftPad o]
  have hmsg : sig.message = str "Cannot find module 'left-pad'" := rfl
  have hsev : sig.severity = .high := rfl
  have hfw : sig.context.framework = extractFramework full := rfl
  have hfrm : firstRuleMatch sig.message sortedRecoveryRules
      = some (ruleMissingDep, m0) := by
    rw [hmsg]
    rfl
  set act := ruleMissingDep.gen m0 sig with hact
  have hget : getRecoveryAction sig
      = some { act with confidence := adjustConfidence act sig } := by
    unfold getRecoveryAction
    rw [hfrm]
  have hpkg : act.params.package = some (str "left-pad") := rfl
  have hconf : (4 : ℚ)/5 ≤ adjustConfidence act sig := by
    have hbase : act.confidence = 0.95 := rfl
    have hsf : severityFactor sig.severity = 1.0 := by rw [hsev]; rfl
    unfold adjustConfidence
    rw [hbase, hsf]
    rcases extractFramework_known full with hf | ⟨f, hf, hk, hfe⟩
    · have hnofw : sig.hasFramework = false := by
        unfold ErrorSignature.hasFramework
        rw [hfw, hf]
      rw [hnofw, Bool.false_and, if_neg (by simp)]
      norm_num
    · have hhasfw : sig.hasFramework = true := by
        unfold ErrorSignature.hasFramework
        rw [hfw, hf]
        simpa using hfe
      have hhaspkg : act.params.hasPackage = true := rfl
      rw [hhasfw, hhaspkg, Bool.and_self, if_pos rfl]
      rw [hfw, hf]
      unfold checkFrameworkCompatibility
      rw [show (Option.getD (some f) [] : Str) = f from rfl, if_pos hk]
      norm_num
  refine ⟨sig, { act with confidence := adjustConfidence act sig },
          hdet, rfl, hsev, hget, rfl, hpkg, hconf⟩

/-! ### First-match classification (C9) -/

lemma firstSome_append_some {α β : Type _} (f : α → Option β) (l₁ l₂ : List α)
    (x : α) (r : β) (h₁ : ∀ y ∈ l₁, f y = none) (h₂ : f x = some r) :
    firstSome f (l₁ ++ x :: l₂) = some r := by
  induction l₁ with
  | nil => simp [firstSome, h₂]
  | cons a t ih =>
    rw [List.cons_append]
    show firstSome f (a :: (t ++ x :: l₂)) = some r
    simp only [firstSome, h₁ a (by simp)]
    exact ih (fun y hy => h₁ y (by simp [hy]))

lemma firstSome_none_iff {α β : Type _} (f : α → Option β) (l : List α) :
    firstSome f l = none ↔ ∀ x ∈ l, f x = none := by
  induction l with
  | nil => simp [firstSome]
  | cons a t ih =>
    cases hfa : f a with
    | some r => simp [firstSome, hfa]
    | none => simp [firstSome, hfa, ih]

/-- C9 (amended): the classifier returns the signature of the first rule in
registration order whose pattern matches the combined output; when no rule
matches and stderr is non-empty after trimming it returns the generic
signature — type `build_error`, severity `medium`, whose message is the
*first line* of stderr, or `"Unknown error"` when that first line is empty
(not the first non-empty line); it returns `none` exactly when no rule
matches and stderr is empty after trimming. -/
theorem c9_first_match_classification :
    (∀ (stderr stdout : Str) (i : ℕ) (nm : String × (Str → Option RMatch)) (m : RMatch),
        errorPatterns[i]? = some nm →
        (∀ p ∈ errorPatterns.take i, p.2 (stderr ++ '\n' :: stdout) = none) →
        nm.2 (stderr ++ '\n' :: stdout) = some m →
        detectError stderr stdout
          = some (createErrorSignature nm.1 m (stderr ++ '\n' :: stdout)
                    (splitNl (stderr ++ '\n' :: stdout)))) ∧
    (∀ stderr stdout : Str,
        (∀ p ∈ errorPatterns, p.2 (stderr ++ '\n' :: stdout) = none) →
        (jsTrim stderr).isEmpty = false →
        detectError stderr stdout
          = some (createGenericErrorSignature stderr (stderr ++ '\n' :: stdout)) ∧
        (createGenericErrorSignature stderr (stderr ++ '\n' :: stdout)).type
          = .build_error ∧
        (createGenericErrorSignature stderr (stderr ++ '\n' :: stdout)).severity
          = .medium ∧
        (createGenericErrorSignature stderr (stderr ++ '\n' :: stdout)).message
          = (if (stderr.takeWhile (fun c => c != '\n')).isEmpty then str "Unknown error"
             else stderr.takeWhile (fun c => c != '\n'))) ∧
    (∀ stderr stdout : Str,
        detectError stderr stdout = none ↔
          ((∀ p ∈ errorPatterns, p.2 (stderr ++ '\n' :: stdout) = none) ∧
           (jsTrim stderr).isEmpty = true)) := by
  have fpm_none : ∀ s : Str,
      firstPatternMatch s = none ↔ ∀ p ∈ errorPatterns, p.2 s = none := by
    intro s
    rw [firstPatternMatch, firstSome_none_iff]
    constructor
    · intro h p hp
      have := h p hp
      simpa using this
    · intro h p hp
      simp [h p hp]
  refine ⟨?_, ?_, ?_⟩
  · intro stderr stdout i nm m hget htake hm
    obtain ⟨hlt, hx⟩ := List.getElem?_eq_some.mp hget
    have hsplit : errorPatterns
        = errorPatterns.take i ++ nm :: errorPatterns.drop (i + 1) := by
      conv_lhs => rw [← List.take_append_drop i errorPatterns]
      rw [List.drop_eq_getElem_cons hlt, hx]
    have hfpm : firstPatternMatch (stderr ++ '\n' :: stdout) = some (nm.1, m) := by
      rw [firstPatternMatch, hsplit]
      exact firstSome_append_some _ _ _ nm (nm.1, m)
        (fun y hy => by simp [htake y hy]) (by simp [hm])
    rw [detectError_eq, hfpm]
  · intro stderr stdout hall ht
    have hfpm : firstPatternMatch (stderr ++ '\n' :: stdout) = none :=
      (fpm_none _).mpr hall
    refine ⟨?_, rfl, rfl, rfl⟩
    rw [detectError_eq, hfpm, ht]
    rfl
  · intro stderr stdout
    rw [detectError_eq]
    cases hfpm : firstPatternMatch (stderr ++ '\n' :: stdout) with
    | some nm =>
      simp only []
      constructor
      · intro h; cases h
      · intro ⟨hall, _⟩
        rw [(fpm_none _).mpr hall] at hfpm
        cases hfpm
    | none =>
      have hall := (fpm_none _).mp hfpm
      by_cases ht : (jsTrim stderr).isEmpty = true
      · rw [if_pos ht]
        exact ⟨fun _ => ⟨hall, ht⟩, fun _ => rfl⟩
      · simp [ht, hall]

/-- The signature classified from a stderr whose first line is empty. -/
def c9sig : ErrorSignature :=
  (detectError (str "\nboom") []).getD (createGenericErrorSignature [] [])

/-- C9 counterexample: with stderr `"\nboom"` no rule matches and stderr is
non-empty after trimming, yet the generic signature's message is
`"Unknown error"` — `stderr.split('\n')[0]` is the empty first line — not
the first non-empty line `"boom"` the claim promises. -/
theorem c9_message_is_first_line_only :
    detectError (str "\nboom") [] = some c9sig ∧
    c9sig.message = str "Unknown error" ∧
    str "Unknown error" ≠ str "boom" := ⟨rfl, rfl, by decide⟩

theorem c9_first_match_classification_witness :
    detectError (str "Cannot find module 'y'") []
      = some (createErrorSignature "missing_dependency"
          { m0 := str "Cannot find module 'y'", g1 := str "y" }
          (str "Cannot find module 'y'" ++ '\n' :: [])
          (splitNl (str "Cannot find module 'y'" ++ '\n' :: []))) ∧
    (detectError (str "\nboom") []
      = some (createGenericErrorSignature (str "\nboom") (str "\nboom" ++ '\n' :: [])) ∧
     (createGenericErrorSignature (str "\nboom") (str "\nboom" ++ '\n' :: [])).type
       = .build_error ∧
     (createGenericErrorSignature (str "\nboom") (str "\nboom" ++ '\n' :: [])).severity
       = .medium ∧
     (createGenericErrorSignature (str "\nboom") (str "\nboom" ++ '\n' :: [])).message
       = (if ((str "\nboom").takeWhile (fun c => c != '\n')).isEmpty
          then str "Unknown error"
          else (str "\nboom").takeWhile (fun c => c != '\n'))) ∧
    detectError (str "   ") [] = none :=
  ⟨c9_first_match_classification.1 (str "Cannot find module 'y'") [] 0
      ("missing_dependency", patMissingDep)
      { m0 := str "Cannot find module 'y'", g1 := str "y" }
      rfl (by simp) rfl,
   c9_first_match_classification.2.1 (str "\nboom") [] (by decide) (by decide),
   (c9_first_match_classification.2.2 (str "   ") []).mpr ⟨by decide, by decide⟩⟩

/-- A running task record. -/
def task1 : TaskRec := { id := str "t1", status := "running" }

/-- A state with one active task and one live child process. -/
def cancelState : WorkflowState :=
  { activeTasks := [(str "t1", task1)], dbTasks := [(str "t1", task1)],
    runnerProcs := [str "cmd_1"], kills := [], events := [] }

/-- C6 counterexample: cancelling the running task returns `true` and marks
it cancelled, but the active child process is not killed — the supervisor's
live-process map still holds it and no kill was issued. -/
theorem c6_cancel_does_not_kill :
    (cancelTask (str "t1") cancelState).1 = true ∧
    (cancelTask (str "t1") cancelState).2.kills = [] ∧
    (cancelTask (str "t1") cancelState).2.runnerProcs = [str "cmd_1"] := by decide

theorem c6_cancel_task_witness :
    ((cancelTask (str "t1") cancelState).1 = true ∧
     lookupTask (str "t1") (cancelTask (str "t1") cancelState).2.activeTasks = none ∧
     lookupTask (str "t1") (cancelTask (str "t1") cancelState).2.dbTasks
       = (lookupTask (str "t1") cancelState.dbTasks).map
           (fun t0 => { t0 with status := "cancelled" }) ∧
     (cancelTask (str "t1") cancelState).2.kills = cancelState.kills ∧
     (cancelTask (str "t1") cancelState).2.runnerProcs = cancelState.runnerProcs ∧
     (cancelTask (str "t1") (cancelTask (str "t1") cancelState).2).1 = false) ∧
    cancelTask (str "t2") cancelState = (false, cancelState) :=
  ⟨(c6_cancel_task (str "t1") cancelState).2 task1 (by decide),
   (c6_cancel_task (str "t2") cancelState).1 (by decide)⟩

end Dextra
